import Mathlib

/-!
A shallow embedding of the OMR decoding core of
`src/Downloads/FinalProductOmr/project/pServer/models/scan.py`, together with
theorems settling the claims about the Grouper (`group_bubbles_scanned`,
`filter_overlapping_bubbles`), the MarkResolver (`detect_marked_bubbles_scanned`),
the Scorer (`score_answers_with_key`) and the pipeline entry point
(`process_omr_image`).

Embedding conventions:
* Python ints become `Nat` (OpenCV bounding boxes have nonnegative
  coordinates and sizes); Python floats become `Rat` (exact arithmetic).
* A candidate bubble `(contour, x, y, w, h)` becomes a `Candidate` carrying
  the bounding box and the two derived attributes of the opaque contour the
  grouping code reads: `cv2.contourArea` and `cv2.arcLength`.
* Python's `sorted`/`list.sort` (a stable sort) becomes `List.insertionSort`,
  which is also stable; a stable sort's output is determined by comparator,
  stability and the input, so the two agree.
* Image-processing stages (decode, preprocess, bubble detection, per-bubble
  fill analysis) are opaque parameters of the functions that consume them.
-/

namespace Omr

/-- `NUM_CHOICES = 5` from the configuration block of `scan.py`. -/
def NUM_CHOICES : ℕ := 5

/-- `NUM_COLUMNS = 4` from the configuration block of `scan.py`. -/
def NUM_COLUMNS : ℕ := 4

/-- `ROW_TOLERANCE = 50` from the configuration block of `scan.py`. -/
def ROW_TOLERANCE : ℚ := 50

/-- `COLUMN_TOLERANCE = 150` from the configuration block of `scan.py`. -/
def COLUMN_TOLERANCE : ℚ := 150

/-- A candidate bubble: the tuple `(contour, x, y, w, h)` produced by
`detect_bubbles_scanned`.  The contour itself is opaque; the grouping code
only reads its bounding box and, in `filter_overlapping_bubbles`, its
`cv2.contourArea` and `cv2.arcLength`, so those two derived values are
carried as fields. -/
structure Candidate where
  x : ℕ
  y : ℕ
  w : ℕ
  h : ℕ
  area : ℚ
  perim : ℚ
deriving DecidableEq, Repr, Inhabited

/-- A column cluster built in phase 1 of `group_bubbles_scanned`:
`{"center_x": ..., "bubbles": [...]}`. -/
structure Column where
  center_x : ℚ
  bubbles : List Candidate
deriving DecidableEq, Repr, Inhabited

/-- A row cluster built in phase 2 of `group_bubbles_scanned`:
`{"center_y": ..., "bubbles": [...], "column": ...}`. -/
structure Row where
  center_y : ℚ
  bubbles : List Candidate
  column : ℕ
deriving DecidableEq, Repr, Inhabited

/-- `center_x = x + w // 2` (line 184 of `scan.py`). -/
def contourCenterX (b : Candidate) : ℕ := b.x + b.w / 2

/-- `center_y = y + h // 2` (line 219 of `scan.py`). -/
def contourCenterY (b : Candidate) : ℕ := b.y + b.h / 2

/-- `np.mean` of the bubble center xs (line 197-198 of `scan.py`); called
only on nonempty lists. -/
def meanCenterX (bubbles : List Candidate) : ℚ :=
  ((bubbles.map (fun b => (contourCenterX b : ℚ))).sum) / (bubbles.length : ℚ)

/-- `np.mean` of the bubble center ys (line 233-234 of `scan.py`). -/
def meanCenterY (bubbles : List Candidate) : ℚ :=
  ((bubbles.map (fun b => (contourCenterY b : ℚ))).sum) / (bubbles.length : ℚ)

/-- The nearest-cluster search shared by phases 1 and 2: scan the running
cluster centers in order, keeping the index of the strictly closest center
within `tol` (`best_match`/`best_row` with `min_distance = inf`, lines
186-193 and 221-229 of `scan.py`).  Earlier indices win ties because the
update needs a strict improvement. -/
def bestMatchAux (target tol : ℚ) : List ℚ → ℕ → Option (ℕ × ℚ) → Option (ℕ × ℚ)
  | [], _, best => best
  | c :: cs, i, best =>
    let d := |target - c|
    let keep :=
      match best with
      | none => decide (d < tol)
      | some p => decide (d < tol ∧ d < p.2)
    bestMatchAux target tol cs (i + 1) (if keep then some (i, d) else best)

/-- The index of the cluster center nearest to `target` within `tol`, if any. -/
def bestMatch (target tol : ℚ) (centers : List ℚ) : Option ℕ :=
  (bestMatchAux target tol centers 0 none).map Prod.fst

/-- One step of phase-1 column clustering (lines 182-203 of `scan.py`):
append the bubble to the nearest column within `COLUMN_TOLERANCE`, updating
that column's running `center_x` to the mean, or start a new column. -/
def addToColumns (columns : List Column) (b : Candidate) : List Column :=
  match bestMatch (contourCenterX b : ℚ) COLUMN_TOLERANCE (columns.map Column.center_x) with
  | some i =>
    let bubbles := (columns.getD i default).bubbles ++ [b]
    columns.set i { center_x := meanCenterX bubbles, bubbles := bubbles }
  | none => columns ++ [{ center_x := (contourCenterX b : ℚ), bubbles := [b] }]

/-- Candidates sorted by bounding-box x (`sorted(bubble_contours, key=lambda
b: b[1])`, line 179; also the per-row sort of phase 4, line 269). -/
def byX (a b : Candidate) : Prop := a.x ≤ b.x

instance : DecidableRel byX := fun a b => inferInstanceAs (Decidable (a.x ≤ b.x))

instance : IsTotal Candidate byX := ⟨fun a b => Nat.le_total a.x b.x⟩

instance : IsTrans Candidate byX := ⟨fun _ _ _ h1 h2 => Nat.le_trans h1 h2⟩

/-- Bubbles of a column sorted by bounding-box y (`sorted(column["bubbles"],
key=lambda b: b[2])`, line 214). -/
def byY (a b : Candidate) : Prop := a.y ≤ b.y

instance : DecidableRel byY := fun a b => inferInstanceAs (Decidable (a.y ≤ b.y))

/-- Columns ordered by descending bubble count (`sorted(columns,
key=lambda c: len(c["bubbles"]), reverse=True)`, line 205). -/
def byColumnSizeDesc (a b : Column) : Prop := b.bubbles.length ≤ a.bubbles.length

instance : DecidableRel byColumnSizeDesc :=
  fun a b => inferInstanceAs (Decidable (b.bubbles.length ≤ a.bubbles.length))

/-- Columns ordered by `center_x` ascending (line 206). -/
def byCenterX (a b : Column) : Prop := a.center_x ≤ b.center_x

instance : DecidableRel byCenterX :=
  fun a b => inferInstanceAs (Decidable (a.center_x ≤ b.center_x))

/-- Rows ordered by `center_y` ascending (lines 242 and 251). -/
def byCenterY (a b : Row) : Prop := a.center_y ≤ b.center_y

instance : DecidableRel byCenterY :=
  fun a b => inferInstanceAs (Decidable (a.center_y ≤ b.center_y))

/-- Rows ordered by descending bubble count (line 250). -/
def byRowSizeDesc (a b : Row) : Prop := b.bubbles.length ≤ a.bubbles.length

instance : DecidableRel byRowSizeDesc :=
  fun a b => inferInstanceAs (Decidable (b.bubbles.length ≤ a.bubbles.length))

/-- The final ordering of the returned rows: `key=lambda r: (r["column"],
r["center_y"])` (line 279). -/
def byColumnThenY (a b : Row) : Prop :=
  a.column < b.column ∨ (a.column = b.column ∧ a.center_y ≤ b.center_y)

instance : DecidableRel byColumnThenY := fun a b => by
  unfold byColumnThenY; infer_instance

instance : IsTotal Row byColumnThenY := by
  constructor
  intro a b
  unfold byColumnThenY
  rcases Nat.lt_trichotomy a.column b.column with h | h | h
  · exact Or.inl (Or.inl h)
  · rcases le_total a.center_y b.center_y with hy | hy
    · exact Or.inl (Or.inr ⟨h, hy⟩)
    · exact Or.inr (Or.inr ⟨h.symm, hy⟩)
  · exact Or.inr (Or.inl h)

instance : IsTrans Row byColumnThenY := by
  constructor
  intro a b c hab hbc
  unfold byColumnThenY at *
  rcases hab with h1 | ⟨h1, hy1⟩
  · rcases hbc with h2 | ⟨h2, _⟩
    · exact Or.inl (h1.trans h2)
    · exact Or.inl (h2 ▸ h1)
  · rcases hbc with h2 | ⟨h2, hy2⟩
    · exact Or.inl (h1 ▸ h2)
    · exact Or.inr ⟨h1.trans h2, hy1.trans hy2⟩

/-- `questions_per_column` (lines 173-175 of `scan.py`): `num_questions //
NUM_COLUMNS`, plus one when the division is not exact. -/
def questionsPerColumn (num_questions : ℕ) : ℕ :=
  num_questions / NUM_COLUMNS + (if num_questions % NUM_COLUMNS ≠ 0 then 1 else 0)

/-- One step of phase-2 row clustering inside a column (lines 217-240 of
`scan.py`), with the adaptive tolerance `ROW_TOLERANCE * (1 + 0.1 *
len(rows) / questions_per_column)` (line 223). -/
def addToRows (qpc col_idx : ℕ) (rows : List Row) (b : Candidate) : List Row :=
  let center_y : ℚ := (contourCenterY b : ℚ)
  let adaptive_tolerance : ℚ :=
    ROW_TOLERANCE * (1 + (1 / 10) * (rows.length : ℚ) / (qpc : ℚ))
  match bestMatch center_y adaptive_tolerance (rows.map Row.center_y) with
  | some i =>
    let bubbles := (rows.getD i default).bubbles ++ [b]
    rows.set i
      { center_y := meanCenterY bubbles, bubbles := bubbles,
        column := (rows.getD i default).column }
  | none => rows ++ [{ center_y := center_y, bubbles := [b], column := col_idx }]

/-- The y estimate for one placeholder row (lines 254-259 of `scan.py`):
the last row's `center_y` plus the average inter-row gap, `30` when only one
row exists, or `100` when the column has no rows at all. -/
def placeholderY (rows : List Row) : ℚ :=
  match rows with
  | [] => 100
  | r :: rs =>
    let last := (r :: rs).getLast (by simp)
    let avg_row_height : ℚ :=
      if 1 < (r :: rs).length then
        (last.center_y - r.center_y) / ((max 1 ((r :: rs).length - 1) : ℕ) : ℚ)
      else 30
    last.center_y + avg_row_height

/-- The `while len(rows) < current_column_questions` loop of lines 253-266:
each iteration appends exactly one placeholder row, so the loop runs
`target - len(rows)` times; `n` counts the remaining iterations. -/
def padRowsAux (col_idx : ℕ) : ℕ → List Row → List Row
  | 0, rows => rows
  | n + 1, rows =>
    padRowsAux col_idx n
      (rows ++ [{ center_y := placeholderY rows, bubbles := [], column := col_idx }])

/-- Pad a column's row list with placeholder rows up to `target` rows. -/
def padRows (col_idx target : ℕ) (rows : List Row) : List Row :=
  padRowsAux col_idx (target - rows.length) rows

/-- The per-bubble quality score of `filter_overlapping_bubbles` (lines
291-303 of `scan.py`): `circularity * (1.0 / (abs(aspect_ratio - 1.0) +
0.1))` with `circularity = 4 * pi * area / perimeter ** 2`, or `0` when the
perimeter is not positive.  The constant positive factor `pi` is omitted
from `circularity`: the score is consumed only through the descending sort
of line 305, and scaling every score by one positive constant leaves that
order (and hence the function's output) unchanged. -/
def bubbleScore (b : Candidate) : ℚ :=
  if 0 < b.perim then
    (4 * b.area / (b.perim * b.perim)) * (1 / (|(b.w : ℚ) / (b.h : ℚ) - 1| + 1 / 10))
  else 0

/-- Scored bubbles ordered by descending score (`bubbles_with_scores.sort(
key=lambda x: x[1], reverse=True)`, line 305). -/
def byScoreDesc (a b : Candidate × ℚ) : Prop := b.2 ≤ a.2

instance : DecidableRel byScoreDesc :=
  fun a b => inferInstanceAs (Decidable (b.2 ≤ a.2))

/-- The bounding-box overlap test of lines 314-323 of `scan.py`: the
clipped intersection area exceeds `0.3` of the smaller box area.  The `max
(0, ...)` clippings are truncated subtraction on `Nat`. -/
def overlapsTooMuch (b e : Candidate) : Prop :=
  let overlap_x := min (b.x + b.w) (e.x + e.w) - max b.x e.x
  let overlap_y := min (b.y + b.h) (e.y + e.h) - max b.y e.y
  (3 : ℚ) / 10 * ((min (b.w * b.h) (e.w * e.h) : ℕ) : ℚ) < ((overlap_x * overlap_y : ℕ) : ℚ)

instance : DecidableRel overlapsTooMuch := fun b e => by
  unfold overlapsTooMuch; infer_instance

/-- `filter_overlapping_bubbles` (lines 284-328 of `scan.py`): score every
bubble, sort by descending score, then greedily keep bubbles that do not
overlap an already kept one by more than 30% of the smaller box, stopping
at `NUM_CHOICES`.  (The loop's `break` once `filtered` is full is modelled
by the size guard: once full, nothing more is appended.) -/
def filter_overlapping_bubbles (bubbles : List Candidate) : List Candidate :=
  if bubbles.length ≤ NUM_CHOICES then bubbles
  else
    let bubbles_with_scores := bubbles.map (fun b => (b, bubbleScore b))
    let sorted := bubbles_with_scores.insertionSort byScoreDesc
    let filtered := sorted.foldl
      (fun filtered p =>
        if NUM_CHOICES ≤ filtered.length then filtered
        else if filtered.any (fun e => decide (overlapsTooMuch p.1 e)) then filtered
        else filtered ++ [p.1])
      []
    filtered.take NUM_CHOICES

/-- Phase 4 applied to one row (lines 268-275 of `scan.py`): sort the row's
bubbles by x and, when more than `NUM_CHOICES` remain, run
`filter_overlapping_bubbles`. -/
def normalizeRow (row : Row) : Row :=
  let bubbles := row.bubbles.insertionSort byX
  { row with
    bubbles := if NUM_CHOICES < bubbles.length then filter_overlapping_bubbles bubbles
               else bubbles }

/-- The per-column row target of phase 3 (lines 244-247 of `scan.py`): the
last of the `NUM_COLUMNS` columns gets `max(1, num_questions - col_idx *
questions_per_column)`; every other index gets `questions_per_column`.
Python's `max(1, ...)` of a possibly negative difference coincides with
`max 1` of the truncated subtraction. -/
def targetRows (num_questions qpc col_idx : ℕ) : ℕ :=
  if col_idx = NUM_COLUMNS - 1 then max 1 (num_questions - col_idx * qpc) else qpc

/-- The body of the `for col_idx, column in enumerate(columns)` loop of
lines 211-277 of `scan.py`: cluster the column's bubbles into rows, sort by
`center_y`, trim to the row target keeping the rows with the most bubbles,
pad with placeholders, and normalize each row's bubbles. -/
def processColumn (num_questions qpc col_idx : ℕ) (column : Column) : List Row :=
  let sorted_bubbles := column.bubbles.insertionSort byY
  let rows := sorted_bubbles.foldl (addToRows qpc col_idx) []
  let rows := rows.insertionSort byCenterY
  let target := targetRows num_questions qpc col_idx
  let rows :=
    if target < rows.length then
      ((rows.insertionSort byRowSizeDesc).take target).insertionSort byCenterY
    else rows
  let rows := padRows col_idx target rows
  rows.map normalizeRow

/-- The column loop itself, carrying the running `col_idx`. -/
def processColumns (num_questions qpc : ℕ) : ℕ → List Column → List Row
  | _, [] => []
  | col_idx, column :: rest =>
    processColumn num_questions qpc col_idx column ++
      processColumns num_questions qpc (col_idx + 1) rest

/-- Phase 1 of `group_bubbles_scanned` (lines 179-203): cluster the
x-sorted candidates into columns. -/
def buildColumns (bubble_contours : List Candidate) : List Column :=
  (bubble_contours.insertionSort byX).foldl addToColumns []

/-- Lines 205-206 of `scan.py`: keep the `NUM_COLUMNS` columns with the
most bubbles, then re-sort the kept columns by `center_x`. -/
def keptColumns (bubble_contours : List Candidate) : List Column :=
  (((buildColumns bubble_contours).insertionSort byColumnSizeDesc).take NUM_COLUMNS).insertionSort
    byCenterX

/-- `group_bubbles_scanned` (lines 167-282 of `scan.py`). -/
def group_bubbles_scanned (bubble_contours : List Candidate) (num_questions : ℕ) :
    List Row :=
  if bubble_contours = [] then []
  else
    let qpc := questionsPerColumn num_questions
    let all_rows := processColumns num_questions qpc 0 (keptColumns bubble_contours)
    all_rows.insertionSort byColumnThenY

/-! ### MarkResolver (`detect_marked_bubbles_scanned`, lines 403-459) -/

/-- The `BubbleState` class of `scan.py` (lines 36-40). -/
inductive BubbleState where
  | BLANK
  | FILLED
  | PARTIAL
  | INVALID
deriving DecidableEq, Repr, Inhabited

/-- The `while len(bubble_states) < NUM_CHOICES` padding of lines 432-434:
missing positions are filled with `BLANK`. -/
def paddedStates (bubble_states : List BubbleState) : List BubbleState :=
  bubble_states ++ List.replicate (NUM_CHOICES - bubble_states.length) BubbleState.BLANK

/-- `[j for j, state in enumerate(bubble_states) if state == FILLED]`
(line 436). -/
def filledIndices (bubble_states : List BubbleState) : List ℕ :=
  bubble_states.enum.filterMap
    (fun p => if p.2 = BubbleState.FILLED then some p.1 else none)

/-- `[j for j, state in enumerate(bubble_states) if state == PARTIAL]`
(line 437).  (Line 438 also collects the `INVALID` indices, but they are
never read.) -/
def partialIndices (bubble_states : List BubbleState) : List ℕ :=
  bubble_states.enum.filterMap
    (fun p => if p.2 = BubbleState.PARTIAL then some p.1 else none)

/-- The per-row mark resolution chain of lines 432-454 of `scan.py`, applied
to the padded state list: one `FILLED` gives its index, several give `-2`,
otherwise one `PARTIAL` gives its index, several give `-3`, and anything
else is blank (`None`, modelled as `none`). -/
def resolve_row_states (bubble_states : List BubbleState) : Option ℤ :=
  let padded := paddedStates bubble_states
  let filled_indices := filledIndices padded
  let partial_indices := partialIndices padded
  if filled_indices.length = 1 then some ((filled_indices.getD 0 0 : ℕ) : ℤ)
  else if 1 < filled_indices.length then some (-2)
  else if filled_indices.length = 0 ∧ partial_indices.length = 1 then
    some ((partial_indices.getD 0 0 : ℕ) : ℤ)
  else if 1 < partial_indices.length then some (-3)
  else none

/-- `detect_marked_bubbles_scanned` (lines 403-459 of `scan.py`).  The fill
analysis `analyze_bubble_fill_scanned(gray, contour, x, y, w, h)` is an
opaque image operation, passed in as `analyze` (the grayscale image is
fixed by the caller); only the returned `BubbleState` is read here.  A row
with no bubbles yields `None`; otherwise the first `NUM_CHOICES` bubbles
are analyzed (the loop breaks at `j >= NUM_CHOICES`) and the padded state
list is resolved; finally the answer list is padded with `None` to
`num_questions` entries and truncated to `num_questions`. -/
def detect_marked_bubbles_scanned (analyze : Candidate → BubbleState × ℚ)
    (rows : List Row) (num_questions : ℕ) : List (Option ℤ) :=
  let marked_answers := (rows.take num_questions).map
    (fun row =>
      if row.bubbles = [] then none
      else
        resolve_row_states ((row.bubbles.take NUM_CHOICES).map (fun b => (analyze b).1)))
  (marked_answers ++ List.replicate (num_questions - marked_answers.length) none).take
    num_questions

/-! ### Scorer (`score_answers_with_key`, lines 461-542) -/

/-- `response_data["marked"]`: `chr(65 + marked) if marked is not None and
marked >= 0 else None` (line 481). -/
def markedLetterOf (marked : Option ℤ) : Option Char :=
  match marked with
  | some v => if 0 ≤ v then some (Char.ofNat (65 + v).toNat) else none
  | none => none

/-- One entry of `detailed_responses` (lines 479-512 of `scan.py`): the
`response_data` dict as it stands after the branch chain has set
`is_correct` and `status`. -/
structure Response where
  question : ℕ
  marked : Option Char
  correct : Char
  is_correct : Bool
  status : String
deriving DecidableEq, Repr, Inhabited

/-- The `response_data` for question `i` (0-based), for marked value `m`
and correct letter `correct_letter`: built at lines 479-485 and then
mutated by exactly one branch of the chain of lines 487-512.  The branch
conditions are those of the code, with `correct_index = ord(letter) -
ord('A')`. -/
def respOf (m : Option ℤ) (correct_letter : Char) (i : ℕ) : Response :=
  let correct_index : ℤ := (correct_letter.toNat : ℤ) - 65
  { question := i + 1
    marked := markedLetterOf m
    correct := correct_letter
    is_correct := decide (m = some correct_index)
    status :=
      if m = some correct_index then "correct"
      else if m = some (-2) then "multiple"
      else if m = some (-3) then "partial"
      else if m = none then "blank"
      -- here `m` is some value, so the `getD` default is never read
      else if 0 ≤ m.getD 0 then "wrong"
      else "invalid" }

/-- The mutable counters of `score_answers_with_key` (lines 464-470),
together with the accumulating `detailed_responses` list (line 472). -/
structure ScoreState where
  score : ℕ
  attempted : ℕ
  multiple_marks : ℕ
  partial_marks : ℕ
  wrong_answers : ℕ
  blank_answers : ℕ
  invalid_answers : ℕ
  detailed_responses : List Response
deriving DecidableEq, Repr, Inhabited

/-- The initial counters (all zero, empty response list). -/
def initScoreState : ScoreState :=
  { score := 0, attempted := 0, multiple_marks := 0, partial_marks := 0,
    wrong_answers := 0, blank_answers := 0, invalid_answers := 0,
    detailed_responses := [] }

/-- One iteration of the `for i in range(num_questions)` loop of lines
474-514 of `scan.py`: read `marked` and the correct letter (both with their
out-of-range defaults, lines 475-476), update exactly one group of counters
through the branch chain of lines 487-512, and append the response. -/
def scoreQuestion (marked_answers : List (Option ℤ)) (answer_key : List Char)
    (st : ScoreState) (i : ℕ) : ScoreState :=
  let marked := marked_answers.getD i none
  let correct_letter := answer_key.getD i 'A'
  let correct_index : ℤ := (correct_letter.toNat : ℤ) - 65
  let resp := respOf marked correct_letter i
  let st :=
    if marked = some correct_index then
      { st with score := st.score + 1, attempted := st.attempted + 1 }
    else if marked = some (-2) then
      { st with multiple_marks := st.multiple_marks + 1
                attempted := st.attempted + 1
                invalid_answers := st.invalid_answers + 1 }
    else if marked = some (-3) then
      { st with partial_marks := st.partial_marks + 1
                attempted := st.attempted + 1
                invalid_answers := st.invalid_answers + 1 }
    else if marked = none then
      { st with blank_answers := st.blank_answers + 1 }
    -- here `marked` is some value, so the `getD` default is never read
    else if 0 ≤ marked.getD 0 then
      { st with wrong_answers := st.wrong_answers + 1, attempted := st.attempted + 1 }
    else
      { st with invalid_answers := st.invalid_answers + 1, attempted := st.attempted + 1 }
  { st with detailed_responses := st.detailed_responses ++ [resp] }

/-- The result dict of `score_answers_with_key` (lines 521-539), with
`processing_metadata` flattened into the `confidence`, `bubbles_detected`
and `image_quality` fields. -/
structure Report where
  score : ℕ
  total_questions : ℕ
  attempted : ℕ
  correct_answers : ℕ
  incorrect_answers : ℕ
  blank_answers : ℕ
  multiple_marks : ℕ
  partial_marks : ℕ
  invalid_answers : ℕ
  accuracy : ℚ
  responses : List (Option Char)
  detailed_responses : List Response
  confidence : ℚ
  bubbles_detected : Bool
  image_quality : String
deriving DecidableEq, Repr, Inhabited

/-- `score_answers_with_key` (lines 461-542 of `scan.py`).  Python's float
literals `0.3` and the divisions become exact rational arithmetic. -/
def score_answers_with_key (marked_answers : List (Option ℤ)) (answer_key : List Char)
    (num_questions : ℕ) : Report :=
  let st := (List.range num_questions).foldl (scoreQuestion marked_answers answer_key)
    initScoreState
  let accuracy : ℚ :=
    if 0 < st.attempted then (st.score : ℚ) / (st.attempted : ℚ) * 100 else 0
  let confidence : ℚ := max 50 (min 95 (70 + (accuracy - 50) * (3 / 10)))
  let invalid_penalty : ℚ :=
    ((st.multiple_marks + st.partial_marks : ℕ) : ℚ) / (num_questions : ℚ) * 20
  let confidence : ℚ := max 30 (confidence - invalid_penalty)
  { score := st.score
    total_questions := num_questions
    attempted := st.attempted
    correct_answers := st.score
    incorrect_answers := st.wrong_answers
    blank_answers := st.blank_answers
    multiple_marks := st.multiple_marks
    partial_marks := st.partial_marks
    invalid_answers := st.invalid_answers
    accuracy := accuracy
    responses := st.detailed_responses.map Response.marked
    detailed_responses := st.detailed_responses
    confidence := confidence
    bubbles_detected := true
    image_quality := "good" }

/-- The value shapes `detect_marked_bubbles_scanned` can emit for one
question: `None`, the sentinels `-2` (multiple) and `-3` (ambiguous
partial), or a choice index in `[0, NUM_CHOICES)`. -/
def validMark (m : Option ℤ) : Prop :=
  m = none ∨ m = some (-2) ∨ m = some (-3) ∨
    ∃ j : ℕ, m = some (j : ℤ) ∧ j < NUM_CHOICES

instance : DecidablePred validMark := fun m => by
  have h5 : NUM_CHOICES = 5 := rfl
  rcases m with _ | v
  · exact .isTrue (Or.inl rfl)
  · refine decidable_of_iff (v = -2 ∨ v = -3 ∨ (0 ≤ v ∧ v < (NUM_CHOICES : ℤ))) ?_
    unfold validMark
    constructor
    · rintro (rfl | rfl | ⟨h0, hlt⟩)
      · exact Or.inr (Or.inl rfl)
      · exact Or.inr (Or.inr (Or.inl rfl))
      · exact Or.inr (Or.inr (Or.inr ⟨v.toNat, by rw [Int.toNat_of_nonneg h0], by omega⟩))
    · rintro (h | h | h | ⟨j, hj, hjlt⟩)
      · exact absurd h (by simp)
      · exact Or.inl (Option.some.inj h)
      · exact Or.inr (Or.inl (Option.some.inj h))
      · have := Option.some.inj hj
        subst this
        exact Or.inr (Or.inr ⟨by omega, by omega⟩)

/-- The number of responses whose `status` is `"correct"`; the claims
measure the reported `score` against it. -/
def countCorrect (responses : List Response) : ℕ :=
  (responses.filter (fun r => r.status = "correct")).length

/-- Written from the spec's confidence formula (§4.6): `clamp` bounds its
argument to `[lo, hi]`.  Stated here so the code's `max(50, min(95, ...))`
can be compared against the spec's `clamp(..., 50, 95)`. -/
def clamp (x lo hi : ℚ) : ℚ := max lo (min hi x)

/-- The marked answers of the spec's first seed scenario: 20 questions,
every question's marked index equal to its key index for the key
`A..E` repeated four times. -/
def seedMarkedAnswers : List (Option ℤ) :=
  [some 0, some 1, some 2, some 3, some 4,
   some 0, some 1, some 2, some 3, some 4,
   some 0, some 1, some 2, some 3, some 4,
   some 0, some 1, some 2, some 3, some 4]

/-- The answer key of the spec's first seed scenario: `A..E` repeated four
times. -/
def seedAnswerKey : List Char :=
  ['A', 'B', 'C', 'D', 'E', 'A', 'B', 'C', 'D', 'E',
   'A', 'B', 'C', 'D', 'E', 'A', 'B', 'C', 'D', 'E']

/-! ### Pipeline entry point (`process_omr_image`, lines 544-587) -/

/-- Python's `str.zfill(width)` (used at line 580 of `scan.py`): left-pad
with `'0'` up to `width` characters, keeping a leading sign character in
front of the padding. -/
def zfill (s : String) (width : ℕ) : String :=
  if width ≤ s.length then s
  else
    let pad := String.mk (List.replicate (width - s.length) '0')
    match s.data with
    | '+' :: rest => String.mk ('+' :: (pad.data ++ rest))
    | '-' :: rest => String.mk ('-' :: (pad.data ++ rest))
    | _ => pad ++ s

/-- The dict `process_omr_image` returns: the scoring report of
`score_answers_with_key` plus the four student fields appended at lines
576-580 of `scan.py`. -/
structure PipelineResult where
  report : Report
  studentId : String
  studentName : String
  rank : String
  lockerNumber : String
deriving DecidableEq, Repr, Inhabited

/-- `process_omr_image` (lines 544-587 of `scan.py`).  The image stages are
opaque: `decoded` is the result of `cv2.imdecode` (`none` when the bytes do
not decode), `detect` is `detect_bubbles_scanned` composed with
`preprocess_scanned_image`, and `analyze` is `analyze_bubble_fill_scanned`
on the grayscale image.  Each `raise` inside the `try` becomes
`Except.error` carrying the exception's message, and the `except` handler
of lines 585-587 re-raises every failure as `ValueError("Failed to process
OMR image: " + str(e))`, modelled by the outer match.  Two failures the
pure stage functions cannot express are raised here at their Python
positions:

* With candidates present and `num_questions = 0`, `questions_per_column`
  is `0`, and the adaptive-tolerance division of line 223 raises
  `ZeroDivisionError("float division by zero")` on the very first bubble of
  the first (necessarily non-empty) kept column — inside
  `group_bubbles_scanned`, before the rows-length check.  Rational division
  by zero would silently totalize this, so the raise is modelled as a guard
  before the grouping call; the guard's condition (`num_questions = 0`) is
  exactly `questions_per_column = 0`.
* `student_id.split('_')[1]` at lines 578 and 580 raises
  `IndexError("list index out of range")` when `student_id` holds no `'_'`;
  the already-computed report is discarded by the exception. -/
def process_omr_image {Img : Type} (decoded : Option Img)
    (detect : Img → List Candidate) (analyze : Img → Candidate → BubbleState × ℚ)
    (answer_key : List Char) (num_questions : ℕ) (student_id : String) :
    Except String PipelineResult :=
  let inner : Except String PipelineResult :=
    match decoded with
    | none => .error "Could not decode image"
    | some img =>
      let bubble_contours := detect img
      if bubble_contours = [] then
        .error "No bubble contours detected. Check image quality and parameters."
      else if num_questions = 0 then
        -- ZeroDivisionError raised at line 223 of `group_bubbles_scanned`
        .error "float division by zero"
      else
        let rows := group_bubbles_scanned bubble_contours num_questions
        if rows.length = 0 then
          .error "No structured rows detected. Check bubble grouping parameters."
        else
          let marked_answers :=
            detect_marked_bubbles_scanned (analyze img) rows num_questions
          let result := score_answers_with_key marked_answers answer_key num_questions
          match (student_id.splitOn "_")[1]? with
          | none =>
            -- IndexError raised by `student_id.split('_')[1]` at line 578
            .error "list index out of range"
          | some tail =>
            .ok { report := result
                  studentId := student_id
                  studentName := "Student " ++ tail
                  rank := "Cadet"
                  lockerNumber := "L" ++ zfill tail 3 }
  match inner with
  | .ok r => .ok r
  | .error e => .error ("Failed to process OMR image: " ++ e)


/-! ### Theorems about the MarkResolver -/

/-- Claim C3: after padding a row's bubble-state list with `BLANK` up to
`NUM_CHOICES` entries, the mark resolution chain yields: exactly one
`FILLED` gives that bubble's index; two or more `FILLED` give `-2`
(MULTIPLE); no `FILLED` and exactly one `PARTIAL` gives that index; no
`FILLED` and two or more `PARTIAL` give `-3` (AMBIGUOUS_PARTIAL); every
other combination — rows with `INVALID` states included, since those
contribute to neither index list — yields `none` (BLANK). -/
theorem resolve_row_states_cases (bubble_states : List BubbleState) :
    (∀ j : ℕ, filledIndices (paddedStates bubble_states) = [j] →
      resolve_row_states bubble_states = some (j : ℤ))
    ∧ (2 ≤ (filledIndices (paddedStates bubble_states)).length →
      resolve_row_states bubble_states = some (-2))
    ∧ (∀ j : ℕ, filledIndices (paddedStates bubble_states) = [] →
      partialIndices (paddedStates bubble_states) = [j] →
      resolve_row_states bubble_states = some (j : ℤ))
    ∧ (filledIndices (paddedStates bubble_states) = [] →
      2 ≤ (partialIndices (paddedStates bubble_states)).length →
      resolve_row_states bubble_states = some (-3))
    ∧ (filledIndices (paddedStates bubble_states) = [] →
      partialIndices (paddedStates bubble_states) = [] →
      resolve_row_states bubble_states = none) := by
  refine ⟨?_, ?_, ?_, ?_, ?_⟩
  · intro j h
    simp [resolve_row_states, h]
  · intro h
    have h1 : (filledIndices (paddedStates bubble_states)).length ≠ 1 := by omega
    have h2 : 1 < (filledIndices (paddedStates bubble_states)).length := by omega
    simp [resolve_row_states, h1, h2]
  · intro j hf hp
    simp [resolve_row_states, hf, hp]
  · intro hf hp
    have h1 : (partialIndices (paddedStates bubble_states)).length ≠ 1 := by omega
    have h2 : 1 < (partialIndices (paddedStates bubble_states)).length := by omega
    simp [resolve_row_states, hf, h1, h2]
  · intro hf hp
    simp [resolve_row_states, hf, hp]

theorem mem_filledIndices_lt {l : List BubbleState} {j : ℕ} (h : j ∈ filledIndices l) :
    j < l.length := by
  unfold filledIndices at h
  simp only [List.mem_filterMap] at h
  obtain ⟨p, hp, hps⟩ := h
  rw [List.mem_enum_iff_getElem?] at hp
  have := List.getElem?_eq_some.mp hp
  split at hps
  · cases hps; exact this.1
  · cases hps

theorem mem_partialIndices_lt {l : List BubbleState} {j : ℕ} (h : j ∈ partialIndices l) :
    j < l.length := by
  unfold partialIndices at h
  simp only [List.mem_filterMap] at h
  obtain ⟨p, hp, hps⟩ := h
  rw [List.mem_enum_iff_getElem?] at hp
  have := List.getElem?_eq_some.mp hp
  split at hps
  · cases hps; exact this.1
  · cases hps

theorem paddedStates_length (states : List BubbleState) (h : states.length ≤ NUM_CHOICES) :
    (paddedStates states).length = NUM_CHOICES := by
  simp [paddedStates]
  omega

theorem resolve_row_states_valid (states : List BubbleState)
    (h : states.length ≤ NUM_CHOICES) :
    resolve_row_states states = none ∨ resolve_row_states states = some (-2) ∨
      resolve_row_states states = some (-3) ∨
      ∃ j : ℕ, resolve_row_states states = some (j : ℤ) ∧ j < NUM_CHOICES := by
  unfold resolve_row_states
  dsimp only
  split_ifs with h1 h2 h3 h4
  · right; right; right
    obtain ⟨a, ha⟩ := List.length_eq_one.mp h1
    refine ⟨a, by simp [ha], ?_⟩
    have : a ∈ filledIndices (paddedStates states) := by simp [ha]
    have := mem_filledIndices_lt this
    rwa [paddedStates_length states h] at this
  · right; left; rfl
  · right; right; right
    obtain ⟨a, ha⟩ := List.length_eq_one.mp h3.2
    refine ⟨a, by simp [ha], ?_⟩
    have : a ∈ partialIndices (paddedStates states) := by simp [ha]
    have := mem_partialIndices_lt this
    rwa [paddedStates_length states h] at this
  · right; right; left; rfl
  · left; rfl

/-- Claim C9: for every row list and every `num_questions`,
`detect_marked_bubbles_scanned` returns exactly `num_questions` entries,
each of which is `None`, `-2`, `-3`, or an index in `[0, NUM_CHOICES)` —
regardless of how many rows or how many bubbles per row were supplied. -/
theorem detect_marked_bubbles_shape (analyze : Candidate → BubbleState × ℚ)
    (rows : List Row) (num_questions : ℕ) :
    (detect_marked_bubbles_scanned analyze rows num_questions).length = num_questions ∧
    ∀ m ∈ detect_marked_bubbles_scanned analyze rows num_questions,
      m = none ∨ m = some (-2) ∨ m = some (-3) ∨
        ∃ j : ℕ, m = some (j : ℤ) ∧ j < NUM_CHOICES := by
  constructor
  · unfold detect_marked_bubbles_scanned
    simp only [List.length_take, List.length_append, List.length_replicate, List.length_map]
    omega
  · intro m hm
    unfold detect_marked_bubbles_scanned at hm
    have hm2 := List.mem_of_mem_take hm
    rcases List.mem_append.mp hm2 with hA | hR
    · obtain ⟨row, _, hrow⟩ := List.mem_map.mp hA
      by_cases hb : row.bubbles = []
      · simp [hb] at hrow; left; exact hrow.symm
      · rw [if_neg hb] at hrow
        subst hrow
        exact resolve_row_states_valid _ (by simp [List.length_take, List.length_map])
    · left; exact List.eq_of_mem_replicate hR


/-! ### Theorems about the Scorer -/

theorem scoreQuestion_detailed (marked_answers : List (Option ℤ)) (answer_key : List Char)
    (st : ScoreState) (i : ℕ) :
    (scoreQuestion marked_answers answer_key st i).detailed_responses
      = st.detailed_responses
          ++ [respOf (marked_answers.getD i none) (answer_key.getD i 'A') i] := by
  unfold scoreQuestion
  dsimp only
  split_ifs <;> rfl

theorem scoreLoop_detailed (marked_answers : List (Option ℤ)) (answer_key : List Char) :
    ∀ (l : List ℕ) (st : ScoreState),
      (l.foldl (scoreQuestion marked_answers answer_key) st).detailed_responses
        = st.detailed_responses
            ++ l.map (fun i => respOf (marked_answers.getD i none) (answer_key.getD i 'A') i)
  | [], st => by simp
  | i :: t, st => by
    rw [List.foldl_cons, scoreLoop_detailed marked_answers answer_key t, List.map_cons,
      scoreQuestion_detailed]
    simp

theorem validMark_getD {marked_answers : List (Option ℤ)}
    (hm : ∀ m ∈ marked_answers, validMark m) (i : ℕ) :
    validMark (marked_answers.getD i none) := by
  by_cases h : i < marked_answers.length
  · rw [List.getD_eq_getElem _ _ h]
    exact hm _ (List.getElem_mem h)
  · rw [List.getD_eq_default _ _ (by omega)]
    exact Or.inl rfl

theorem countCorrect_append_one (responses : List Response) (r : Response) :
    countCorrect (responses ++ [r])
      = countCorrect responses + (if r.status = "correct" then 1 else 0) := by
  unfold countCorrect
  rw [List.filter_append]
  split_ifs with h <;> simp [h]

theorem scoreQuestion_counters (marked_answers : List (Option ℤ)) (answer_key : List Char)
    (hm : ∀ m ∈ marked_answers, validMark m) (st : ScoreState) (i : ℕ) :
    let st2 := scoreQuestion marked_answers answer_key st i
    (st2.score + st2.wrong_answers + st2.blank_answers + st2.multiple_marks + st2.partial_marks
        = st.score + st.wrong_answers + st.blank_answers + st.multiple_marks
            + st.partial_marks + 1)
    ∧ (st2.attempted + st2.blank_answers = st.attempted + st.blank_answers + 1)
    ∧ (st2.invalid_answers + st.multiple_marks + st.partial_marks
        = st.invalid_answers + st2.multiple_marks + st2.partial_marks)
    ∧ (st2.score + countCorrect st.detailed_responses
        = st.score + countCorrect st2.detailed_responses) := by
  have hv := validMark_getD hm i
  unfold scoreQuestion
  dsimp only
  split_ifs with h1 h2 h3 h4 h5
  · have hs : (respOf (marked_answers.getD i none) (answer_key.getD i 'A') i).status
        = "correct" := by
      unfold respOf; dsimp only; rw [if_pos h1]
    refine ⟨by dsimp only <;> omega, by dsimp only <;> omega, by dsimp only <;> omega, ?_⟩
    dsimp only
    rw [countCorrect_append_one, hs]
    simp <;> omega
  · have hs : (respOf (marked_answers.getD i none) (answer_key.getD i 'A') i).status
        = "multiple" := by
      unfold respOf; dsimp only; rw [if_neg h1, if_pos h2]
    refine ⟨by dsimp only <;> omega, by dsimp only <;> omega, by dsimp only <;> omega, ?_⟩
    dsimp only
    rw [countCorrect_append_one, hs]
    simp <;> omega
  · have hs : (respOf (marked_answers.getD i none) (answer_key.getD i 'A') i).status
        = "partial" := by
      unfold respOf; dsimp only; rw [if_neg h1, if_neg h2, if_pos h3]
    refine ⟨by dsimp only <;> omega, by dsimp only <;> omega, by dsimp only <;> omega, ?_⟩
    dsimp only
    rw [countCorrect_append_one, hs]
    simp <;> omega
  · have hs : (respOf (marked_answers.getD i none) (answer_key.getD i 'A') i).status
        = "blank" := by
      unfold respOf; dsimp only; rw [if_neg h1, if_neg h2, if_neg h3, if_pos h4]
    refine ⟨by dsimp only <;> omega, by dsimp only <;> omega, by dsimp only <;> omega, ?_⟩
    dsimp only
    rw [countCorrect_append_one, hs]
    simp <;> omega
  · have hs : (respOf (marked_answers.getD i none) (answer_key.getD i 'A') i).status
        = "wrong" := by
      unfold respOf; dsimp only; rw [if_neg h1, if_neg h2, if_neg h3, if_neg h4, if_pos h5]
    refine ⟨by dsimp only <;> omega, by dsimp only <;> omega, by dsimp only <;> omega, ?_⟩
    dsimp only
    rw [countCorrect_append_one, hs]
    simp <;> omega
  · -- the final `invalid` branch cannot fire for a `validMark` value
    exfalso
    rcases hv with h | h | h | ⟨j, hj, hjlt⟩
    · exact h4 h
    · exact h2 h
    · exact h3 h
    · exact h5 (by rw [hj]; simp)

theorem scoreLoop_counters (marked_answers : List (Option ℤ)) (answer_key : List Char)
    (hm : ∀ m ∈ marked_answers, validMark m) :
    ∀ (l : List ℕ) (st : ScoreState),
      let st2 := l.foldl (scoreQuestion marked_answers answer_key) st
      (st2.score + st2.wrong_answers + st2.blank_answers + st2.multiple_marks
          + st2.partial_marks
        = st.score + st.wrong_answers + st.blank_answers + st.multiple_marks
            + st.partial_marks + l.length)
      ∧ (st2.attempted + st2.blank_answers = st.attempted + st.blank_answers + l.length)
      ∧ (st2.invalid_answers + st.multiple_marks + st.partial_marks
          = st.invalid_answers + st2.multiple_marks + st2.partial_marks)
      ∧ (st2.score + countCorrect st.detailed_responses
          = st.score + countCorrect st2.detailed_responses)
  | [], st => by simp
  | i :: t, st => by
    intro st2
    obtain ⟨a1, a2, a3, a4⟩ :=
      scoreQuestion_counters marked_answers answer_key hm st i
    obtain ⟨b1, b2, b3, b4⟩ :=
      scoreLoop_counters marked_answers answer_key hm t
        (scoreQuestion marked_answers answer_key st i)
    refine ⟨?_, ?_, ?_, ?_⟩
    · simpa [st2, List.foldl_cons] using by omega
    · simpa [st2, List.foldl_cons] using by omega
    · simp only [st2, List.foldl_cons]
      omega
    · simp only [st2, List.foldl_cons]
      omega

/-- Claim C4: for marked-answer lists whose entries are `None`, `-2`, `-3`
or an index in `[0, NUM_CHOICES)`, and any key of length `num_questions`,
the report satisfies `score = #{status = correct}`,
`correct + wrong + blank + multiple + partial = num_questions`,
`attempted + blank = num_questions`,
`invalid_answers = multiple_marks + partial_marks`, and
`accuracy = score / attempted * 100` with `accuracy = 0` when
`attempted = 0`. -/
theorem score_answers_with_key_invariants (marked_answers : List (Option ℤ))
    (answer_key : List Char) (num_questions : ℕ)
    (hm : ∀ m ∈ marked_answers, validMark m)
    (hk : answer_key.length = num_questions) :
    (score_answers_with_key marked_answers answer_key num_questions).score
        = countCorrect
            (score_answers_with_key marked_answers answer_key num_questions).detailed_responses
    ∧ (score_answers_with_key marked_answers answer_key num_questions).correct_answers
        + (score_answers_with_key marked_answers answer_key num_questions).incorrect_answers
        + (score_answers_with_key marked_answers answer_key num_questions).blank_answers
        + (score_answers_with_key marked_answers answer_key num_questions).multiple_marks
        + (score_answers_with_key marked_answers answer_key num_questions).partial_marks
        = num_questions
    ∧ (score_answers_with_key marked_answers answer_key num_questions).attempted
        + (score_answers_with_key marked_answers answer_key num_questions).blank_answers
        = num_questions
    ∧ (score_answers_with_key marked_answers answer_key num_questions).invalid_answers
        = (score_answers_with_key marked_answers answer_key num_questions).multiple_marks
          + (score_answers_with_key marked_answers answer_key num_questions).partial_marks
    ∧ ((score_answers_with_key marked_answers answer_key num_questions).attempted = 0 →
        (score_answers_with_key marked_answers answer_key num_questions).accuracy = 0)
    ∧ (0 < (score_answers_with_key marked_answers answer_key num_questions).attempted →
        (score_answers_with_key marked_answers answer_key num_questions).accuracy
          = ((score_answers_with_key marked_answers answer_key num_questions).score : ℚ)
            / ((score_answers_with_key marked_answers answer_key num_questions).attempted : ℚ)
            * 100) := by
  obtain ⟨a1, a2, a3, a4⟩ :=
    scoreLoop_counters marked_answers answer_key hm (List.range num_questions) initScoreState
  unfold score_answers_with_key
  simp only [initScoreState, List.length_range, countCorrect, List.filter_nil,
    List.length_nil] at a1 a2 a3 a4 ⊢
  refine ⟨by omega, by omega, by omega, by omega, ?_, ?_⟩
  · intro h
    rw [if_neg (by omega)]
  · intro h
    rw [if_pos h]

/-- Claim C7: for every report of the Scorer (over a positive question
count), `confidence = max(30, clamp(70 + (accuracy - 50) * 0.3, 50, 95)
- (multiple_marks + partial_marks) / num_questions * 20)`, in exact
rational arithmetic, where `clamp` is the spec's clamping function. -/
theorem confidence_matches_spec_formula (marked_answers : List (Option ℤ))
    (answer_key : List Char) (num_questions : ℕ) (h : 0 < num_questions) :
    (score_answers_with_key marked_answers answer_key num_questions).confidence
      = max 30
          (clamp
              (70 + ((score_answers_with_key marked_answers answer_key
                  num_questions).accuracy - 50) * (3 / 10)) 50 95
            - (((score_answers_with_key marked_answers answer_key
                    num_questions).multiple_marks
                  + (score_answers_with_key marked_answers answer_key
                      num_questions).partial_marks : ℕ) : ℚ)
              / (num_questions : ℚ) * 20) := by
  unfold score_answers_with_key clamp
  dsimp only

theorem scoreQuestion_attempted (marked_answers : List (Option ℤ)) (answer_key : List Char)
    (st : ScoreState) (i : ℕ) :
    (scoreQuestion marked_answers answer_key st i).attempted
      = st.attempted + (if marked_answers.getD i none = none then 0 else 1) := by
  unfold scoreQuestion
  dsimp only
  split_ifs with h1 h2 h3 h4 h5 <;> simp_all

theorem scoreLoop_attempted (marked_answers : List (Option ℤ)) (answer_key : List Char) :
    ∀ (l : List ℕ) (st : ScoreState),
      (l.foldl (scoreQuestion marked_answers answer_key) st).attempted
        = st.attempted
          + (l.map (fun i => if marked_answers.getD i none = none then 0 else 1)).sum
  | [], st => by simp
  | i :: t, st => by
    rw [List.foldl_cons, scoreLoop_attempted marked_answers answer_key t,
      scoreQuestion_attempted]
    simp only [List.map_cons, List.sum_cons]
    omega

theorem respOf_marked (m : Option ℤ) (correct_letter : Char) (i : ℕ) :
    (respOf m correct_letter i).marked = markedLetterOf m := rfl

/-- Claim C8: for a fixed marked-answer list and `num_questions`, two
answer keys that are permutations of each other give reports with the same
`attempted` count and identical per-question marked values (both the
`responses` list and the `marked` field of every detailed response). -/
theorem key_permutation_invariants (marked_answers : List (Option ℤ)) (num_questions : ℕ)
    (key1 key2 : List Char) (hperm : key1.Perm key2) :
    (score_answers_with_key marked_answers key1 num_questions).attempted
        = (score_answers_with_key marked_answers key2 num_questions).attempted
    ∧ (score_answers_with_key marked_answers key1 num_questions).responses
        = (score_answers_with_key marked_answers key2 num_questions).responses
    ∧ (score_answers_with_key marked_answers key1 num_questions).detailed_responses.map
          Response.marked
        = (score_answers_with_key marked_answers key2 num_questions).detailed_responses.map
          Response.marked := by
  have d1 := scoreLoop_detailed marked_answers key1 (List.range num_questions) initScoreState
  have d2 := scoreLoop_detailed marked_answers key2 (List.range num_questions) initScoreState
  have hcomp :
      Response.marked ∘ (fun i => respOf (marked_answers.getD i none) (key1.getD i 'A') i)
        = Response.marked ∘
            (fun i => respOf (marked_answers.getD i none) (key2.getD i 'A') i) := by
    funext i
    rfl
  unfold score_answers_with_key
  dsimp only
  refine ⟨?_, ?_, ?_⟩
  · rw [scoreLoop_attempted, scoreLoop_attempted]
  · rw [d1, d2]
    simp only [initScoreState, List.nil_append, List.map_map]
    rw [hcomp]
  · rw [d1, d2]
    simp only [initScoreState, List.nil_append, List.map_map]
    rw [hcomp]

theorem getD_key_pad (key : List Char) (num_questions : ℕ) :
    ∀ i, key.getD i 'A'
      = (key ++ List.replicate (num_questions - key.length) 'A').getD i 'A' := by
  intro i
  by_cases hi : i < key.length
  · rw [List.getD_append _ _ _ _ hi]
  · by_cases hi2 : i < key.length + (num_questions - key.length)
    · rw [List.getD_eq_default _ _ (by omega)]
      rw [List.getD_eq_getElem _ _ (by simp; omega)]
      rw [List.getElem_append_right (by omega)]
      simp
    · rw [List.getD_eq_default _ _ (by omega),
        List.getD_eq_default _ _ (by simp; omega)]

/-- Claim C10: when the answer key is shorter than `num_questions` the
Scorer does not fail — the report equals the one for the key padded with
the default correct letter `A`, and every question at an index beyond the
key's length is scored against `A`. -/
theorem short_key_defaults_to_A (marked_answers : List (Option ℤ)) (key : List Char)
    (num_questions : ℕ) (h : key.length < num_questions) :
    score_answers_with_key marked_answers key num_questions
        = score_answers_with_key marked_answers
            (key ++ List.replicate (num_questions - key.length) 'A') num_questions
    ∧ ∀ i, key.length ≤ i → i < num_questions →
        (score_answers_with_key marked_answers key num_questions).detailed_responses[i]?
          = some (respOf (marked_answers.getD i none) 'A' i) := by
  have hstep : scoreQuestion marked_answers key
      = scoreQuestion marked_answers
          (key ++ List.replicate (num_questions - key.length) 'A') := by
    funext st i
    unfold scoreQuestion
    rw [getD_key_pad key num_questions i]
  constructor
  · unfold score_answers_with_key
    rw [hstep]
  · intro i hlen hlt
    have d1 := scoreLoop_detailed marked_answers key (List.range num_questions) initScoreState
    unfold score_answers_with_key
    dsimp only
    rw [d1]
    simp only [initScoreState, List.nil_append]
    rw [List.getElem?_map, List.getElem?_range hlt]
    simp only [Option.map_some']
    rw [show key.getD i 'A' = 'A' from List.getD_eq_default _ _ (by omega)]


/-! ### Theorems about the Grouper -/

theorem padRowsAux_length (col_idx : ℕ) :
    ∀ (n : ℕ) (rows : List Row), (padRowsAux col_idx n rows).length = rows.length + n
  | 0, rows => rfl
  | n + 1, rows => by
    rw [padRowsAux, padRowsAux_length col_idx n]
    simp
    omega

theorem padRows_length (col_idx target : ℕ) (rows : List Row) :
    (padRows col_idx target rows).length = max rows.length target := by
  rw [padRows, padRowsAux_length]
  omega

theorem processColumn_length (num_questions qpc col_idx : ℕ) (column : Column) :
    (processColumn num_questions qpc col_idx column).length
      = targetRows num_questions qpc col_idx := by
  unfold processColumn
  dsimp only
  rw [List.length_map, padRows_length]
  split_ifs with h
  · rw [List.length_insertionSort, List.length_take, List.length_insertionSort]
    omega
  · omega

theorem processColumns_length (num_questions qpc : ℕ) :
    ∀ (cols : List Column) (i : ℕ),
      (processColumns num_questions qpc i cols).length
        = ((List.range cols.length).map
            (fun j => targetRows num_questions qpc (i + j))).sum
  | [], i => by simp [processColumns]
  | c :: cs, i => by
    rw [processColumns, List.length_append, processColumn_length,
      processColumns_length num_questions qpc cs (i + 1)]
    rw [List.length_cons, List.range_succ_eq_map]
    simp only [List.map_cons, List.sum_cons, List.map_map, Nat.add_zero]
    have hfun : ((fun j => targetRows num_questions qpc (i + j)) ∘ Nat.succ)
        = (fun j => targetRows num_questions qpc (i + 1 + j)) := by
      funext j
      simp only [Function.comp_apply]
      congr 1
      omega
    rw [hfun]

theorem addToColumns_ne_nil (columns : List Column) (b : Candidate) :
    addToColumns columns b ≠ [] := by
  unfold addToColumns
  cases h : bestMatch (contourCenterX b : ℚ) COLUMN_TOLERANCE (columns.map Column.center_x) with
  | none => simp
  | some i =>
    dsimp only
    intro hnil
    have := congrArg List.length hnil
    simp only [List.length_set, List.length_nil] at this
    have hc : columns = [] := List.eq_nil_of_length_eq_zero this
    subst hc
    simp [bestMatch, bestMatchAux] at h

theorem foldl_addToColumns_ne_nil :
    ∀ (l : List Candidate) (cols : List Column), cols ≠ [] →
      l.foldl addToColumns cols ≠ []
  | [], cols => fun h => h
  | b :: t, cols => fun _ => by
    rw [List.foldl_cons]
    exact foldl_addToColumns_ne_nil t (addToColumns cols b) (addToColumns_ne_nil cols b)

theorem buildColumns_ne_nil {bubble_contours : List Candidate}
    (h : bubble_contours ≠ []) : buildColumns bubble_contours ≠ [] := by
  unfold buildColumns
  cases hs : bubble_contours.insertionSort byX with
  | nil =>
    exfalso
    have := List.length_insertionSort byX bubble_contours
    rw [hs] at this
    simp at this
    exact h (List.eq_nil_of_length_eq_zero this.symm)
  | cons c cs =>
    rw [List.foldl_cons]
    exact foldl_addToColumns_ne_nil cs _ (addToColumns_ne_nil [] c)

theorem keptColumns_length_le (bubble_contours : List Candidate) :
    (keptColumns bubble_contours).length ≤ NUM_COLUMNS := by
  unfold keptColumns
  rw [List.length_insertionSort, List.length_take]
  omega

theorem keptColumns_ne_nil {bubble_contours : List Candidate}
    (h : bubble_contours ≠ []) : 1 ≤ (keptColumns bubble_contours).length := by
  unfold keptColumns
  rw [List.length_insertionSort, List.length_take, List.length_insertionSort]
  have h1 := buildColumns_ne_nil h
  have : 0 < (buildColumns bubble_contours).length := List.length_pos.mpr h1
  have h4 : 0 < NUM_COLUMNS := by norm_num [NUM_COLUMNS]
  omega

theorem sum_targetRows (num_questions qpc k : ℕ) (hk1 : 1 ≤ k) (hk4 : k ≤ NUM_COLUMNS) :
    ((List.range k).map (fun j => targetRows num_questions qpc (0 + j))).sum
      = if k < NUM_COLUMNS then k * qpc
        else (NUM_COLUMNS - 1) * qpc
          + max 1 (num_questions - (NUM_COLUMNS - 1) * qpc) := by
  have h4 : NUM_COLUMNS = 4 := rfl
  rw [h4] at hk4 ⊢
  interval_cases k <;>
    simp [List.range_succ, targetRows, NUM_COLUMNS] <;> omega

theorem mem_processColumns {r : Row} (num_questions qpc : ℕ) :
    ∀ (i : ℕ) (cols : List Column), r ∈ processColumns num_questions qpc i cols →
      ∃ r0, r = normalizeRow r0
  | i, [] => by simp [processColumns]
  | i, c :: cs => by
    intro hmem
    rw [processColumns] at hmem
    rcases List.mem_append.mp hmem with h | h
    · unfold processColumn at h
      dsimp only at h
      obtain ⟨r0, _, hr0⟩ := List.mem_map.mp h
      exact ⟨r0, hr0.symm⟩
    · exact mem_processColumns num_questions qpc (i + 1) cs h

/-- Claim C1 (amended): for a non-empty candidate list and
`num_questions ≥ 1` the Grouper's output is sorted by `(column_index,
center_y)`, and its row count is `k * questions_per_column` when phase 1
keeps `k < NUM_COLUMNS` columns, and `(NUM_COLUMNS - 1) *
questions_per_column + max(1, num_questions - (NUM_COLUMNS - 1) *
questions_per_column)` when it keeps `NUM_COLUMNS` — which equals
`num_questions` exactly when additionally `num_questions ≥ (NUM_COLUMNS -
1) * questions_per_column + 1`.  (The claimed "exactly `num_questions`
rows" fails when fewer than `NUM_COLUMNS` columns form; see the
counterexample.) -/
theorem group_bubbles_scanned_shape (bubble_contours : List Candidate)
    (num_questions : ℕ) (hc : bubble_contours ≠ []) (hq : 1 ≤ num_questions) :
    (group_bubbles_scanned bubble_contours num_questions).Sorted byColumnThenY
    ∧ (group_bubbles_scanned bubble_contours num_questions).length
        = (if (keptColumns bubble_contours).length < NUM_COLUMNS
           then (keptColumns bubble_contours).length * questionsPerColumn num_questions
           else (NUM_COLUMNS - 1) * questionsPerColumn num_questions
                + max 1 (num_questions
                    - (NUM_COLUMNS - 1) * questionsPerColumn num_questions))
    ∧ ((keptColumns bubble_contours).length = NUM_COLUMNS →
        (NUM_COLUMNS - 1) * questionsPerColumn num_questions + 1 ≤ num_questions →
        (group_bubbles_scanned bubble_contours num_questions).length = num_questions) := by
  have hk4 := keptColumns_length_le bubble_contours
  have hk1 := keptColumns_ne_nil hc
  unfold group_bubbles_scanned
  simp only [if_neg hc]
  refine ⟨List.sorted_insertionSort _ _, ?_, ?_⟩
  · rw [List.length_insertionSort, processColumns_length,
      sum_targetRows _ _ _ hk1 hk4]
  · intro h4 hge
    rw [List.length_insertionSort, processColumns_length,
      sum_targetRows _ _ _ hk1 hk4, if_neg (by omega)]
    have h4' : NUM_COLUMNS = 4 := rfl
    rw [h4'] at hge ⊢
    simp only [show (4 : ℕ) - 1 = 3 from rfl] at hge ⊢
    omega

/-- Claim C2 (amended): every returned row with at least two bubbles has
its bubbles in ascending bounding-box `x` order, except a row that had
more than `NUM_CHOICES` bubbles after the phase-4 sort: such a row is the
output of `filter_overlapping_bubbles` on its x-sorted bubble list, which
emits bubbles in descending-score order and need not be x-ascending (see
the counterexample). -/
theorem group_rows_sorted_by_x_or_filtered (bubble_contours : List Candidate)
    (num_questions : ℕ) (row : Row)
    (hmem : row ∈ group_bubbles_scanned bubble_contours num_questions)
    (h2 : 2 ≤ row.bubbles.length) :
    row.bubbles.Sorted byX
    ∨ ∃ bs : List Candidate, NUM_CHOICES < bs.length ∧ bs.Sorted byX ∧
        row.bubbles = filter_overlapping_bubbles bs := by
  unfold group_bubbles_scanned at hmem
  by_cases hc : bubble_contours = []
  · rw [if_pos hc] at hmem
    simp at hmem
  · rw [if_neg hc] at hmem
    dsimp only at hmem
    rw [List.mem_insertionSort] at hmem
    obtain ⟨r0, hr0⟩ := mem_processColumns _ _ 0 _ hmem
    subst hr0
    unfold normalizeRow
    dsimp only
    split_ifs with h5
    · exact Or.inr ⟨_, h5, List.sorted_insertionSort byX _, rfl⟩
    · exact Or.inl (List.sorted_insertionSort byX _)


/-! ### Theorems about the pipeline entry point -/

theorem score_answers_with_key_lengths (marked_answers : List (Option ℤ))
    (answer_key : List Char) (num_questions : ℕ) :
    (score_answers_with_key marked_answers answer_key num_questions).detailed_responses.length
        = num_questions
    ∧ (score_answers_with_key marked_answers answer_key num_questions).responses.length
        = num_questions := by
  have d := scoreLoop_detailed marked_answers answer_key (List.range num_questions)
    initScoreState
  unfold score_answers_with_key
  dsimp only
  rw [d]
  simp [initScoreState]

/-- Claim C5: the pipeline entry point surfaces four distinct,
caller-distinguishable error kinds as wrapped `ValueError` messages —
undecodable bytes (`InvalidImage`), an empty candidate list
(`NoBubblesDetected`), zero grouped rows (`NoRowsDetected`), and any other
failure (`Internal`), realized by the two failures reachable in the cited
lines: the `ZeroDivisionError` the grouping raises when `num_questions =
0` and the `IndexError` the credential lines 576-580 raise when
`student_id` holds no `'_'`.  All five concrete messages are pairwise
distinct; the pipeline aborts at the first failing stage; and a returned
result is always complete — a full report with `num_questions` detailed
responses and `num_questions` response letters plus the student fields —
never a partial one (the post-scoring `IndexError` discards the computed
report). -/
theorem process_omr_image_errors {Img : Type} (decoded : Option Img)
    (detect : Img → List Candidate) (analyze : Img → Candidate → BubbleState × ℚ)
    (answer_key : List Char) (num_questions : ℕ) (student_id : String) :
    (decoded = none →
      process_omr_image decoded detect analyze answer_key num_questions student_id
        = .error "Failed to process OMR image: Could not decode image")
    ∧ (∀ img, decoded = some img → detect img = [] →
      process_omr_image decoded detect analyze answer_key num_questions student_id
        = .error ("Failed to process OMR image: "
            ++ "No bubble contours detected. Check image quality and parameters."))
    ∧ (∀ img, decoded = some img → detect img ≠ [] → num_questions = 0 →
      process_omr_image decoded detect analyze answer_key num_questions student_id
        = .error ("Failed to process OMR image: " ++ "float division by zero"))
    ∧ (∀ img, decoded = some img → detect img ≠ [] → num_questions ≠ 0 →
      (group_bubbles_scanned (detect img) num_questions).length = 0 →
      process_omr_image decoded detect analyze answer_key num_questions student_id
        = .error ("Failed to process OMR image: "
            ++ "No structured rows detected. Check bubble grouping parameters."))
    ∧ (∀ img, decoded = some img → detect img ≠ [] → num_questions ≠ 0 →
      (group_bubbles_scanned (detect img) num_questions).length ≠ 0 →
      (student_id.splitOn "_").length ≤ 1 →
      process_omr_image decoded detect analyze answer_key num_questions student_id
        = .error ("Failed to process OMR image: " ++ "list index out of range"))
    ∧ ([("Failed to process OMR image: Could not decode image" : String),
        "Failed to process OMR image: "
          ++ "No bubble contours detected. Check image quality and parameters.",
        "Failed to process OMR image: " ++ "float division by zero",
        "Failed to process OMR image: "
          ++ "No structured rows detected. Check bubble grouping parameters.",
        "Failed to process OMR image: " ++ "list index out of range"].Pairwise (· ≠ ·))
    ∧ (∀ r, process_omr_image decoded detect analyze answer_key num_questions student_id
          = .ok r →
        ∃ img tail, decoded = some img
          ∧ (student_id.splitOn "_")[1]? = some tail
          ∧ r.report = score_answers_with_key
              (detect_marked_bubbles_scanned (analyze img)
                (group_bubbles_scanned (detect img) num_questions) num_questions)
              answer_key num_questions
          ∧ r.report.detailed_responses.length = num_questions
          ∧ r.report.responses.length = num_questions
          ∧ r.studentId = student_id
          ∧ r.studentName = "Student " ++ tail
          ∧ r.rank = "Cadet"
          ∧ r.lockerNumber = "L" ++ zfill tail 3) := by
  refine ⟨?_, ?_, ?_, ?_, ?_, by decide, ?_⟩
  · intro h
    subst h
    rfl
  · intro img h hdet
    subst h
    unfold process_omr_image
    simp only [if_pos hdet]
  · intro img h hdet hq
    subst h
    unfold process_omr_image
    simp only [if_neg hdet, if_pos hq]
  · intro img h hdet hq hrows
    subst h
    unfold process_omr_image
    simp only [if_neg hdet, if_neg hq, if_pos hrows]
  · intro img h hdet hq hrows hsplit
    subst h
    unfold process_omr_image
    simp only [if_neg hdet, if_neg hq, if_neg hrows]
    rw [show (student_id.splitOn "_")[1]? = none from
      List.getElem?_eq_none (by omega)]
  · intro r hr
    unfold process_omr_image at hr
    rcases decoded with _ | img
    · simp at hr
    · dsimp only at hr
      by_cases hdet : detect img = []
      · rw [if_pos hdet] at hr
        simp at hr
      · rw [if_neg hdet] at hr
        by_cases hq : num_questions = 0
        · rw [if_pos hq] at hr
          simp at hr
        · rw [if_neg hq] at hr
          by_cases hrows : (group_bubbles_scanned (detect img) num_questions).length = 0
          · rw [if_pos hrows] at hr
            simp at hr
          · rw [if_neg hrows] at hr
            cases hsplit : (student_id.splitOn "_")[1]? with
            | none =>
              rw [hsplit] at hr
              simp at hr
            | some tail =>
              rw [hsplit] at hr
              simp at hr
              subst hr
              exact ⟨img, tail, rfl, rfl, rfl,
                (score_answers_with_key_lengths _ _ _).1,
                (score_answers_with_key_lengths _ _ _).2, rfl, rfl, rfl, rfl⟩


/-! ### Counterexamples and witnesses for the claims -/

/-- Claim C1 counterexample: a single candidate (a non-empty list) with
`num_questions = 8` yields only `2` grouped rows — phase 1 forms one
column, so the Grouper targets `ceil(8/4) = 2` rows in total, not
`num_questions = 8`. -/
theorem group_bubbles_scanned_not_num_questions :
    (group_bubbles_scanned [⟨0, 0, 10, 10, 80, 33⟩] 8).length = 2
    ∧ (group_bubbles_scanned [⟨0, 0, 10, 10, 80, 33⟩] 8).length ≠ 8 :=
  of_decide_eq_true (by with_unfolding_all rfl)

/-- Witness for the C1 theorem at one candidate and one question. -/
theorem group_bubbles_scanned_shape_witness :
    (group_bubbles_scanned [⟨0, 0, 10, 10, 80, 33⟩] 1).Sorted byColumnThenY
    ∧ (group_bubbles_scanned [⟨0, 0, 10, 10, 80, 33⟩] 1).length
        = (if (keptColumns [⟨0, 0, 10, 10, 80, 33⟩]).length < NUM_COLUMNS
           then (keptColumns [⟨0, 0, 10, 10, 80, 33⟩]).length * questionsPerColumn 1
           else (NUM_COLUMNS - 1) * questionsPerColumn 1
                + max 1 (1 - (NUM_COLUMNS - 1) * questionsPerColumn 1))
    ∧ ((keptColumns [⟨0, 0, 10, 10, 80, 33⟩]).length = NUM_COLUMNS →
        (NUM_COLUMNS - 1) * questionsPerColumn 1 + 1 ≤ 1 →
        (group_bubbles_scanned [⟨0, 0, 10, 10, 80, 33⟩] 1).length = 1) :=
  group_bubbles_scanned_shape [⟨0, 0, 10, 10, 80, 33⟩] 1 (by simp) (le_refl 1)

/-- Claim C2 counterexample: six same-row bubbles whose overlap-filter
scores increase with `x`.  The row exceeds `NUM_CHOICES`, so phase 4 runs
`filter_overlapping_bubbles`, whose greedy pass emits bubbles in
descending-score order; the surviving bubbles sit at `x = 100, 80, 60, 40,
20` — not ascending in `x`. -/
theorem group_row_not_sorted_by_x :
    2 ≤ ((group_bubbles_scanned
        [⟨0, 0, 10, 10, 10, 40⟩, ⟨20, 0, 10, 10, 20, 40⟩, ⟨40, 0, 10, 10, 30, 40⟩,
         ⟨60, 0, 10, 10, 40, 40⟩, ⟨80, 0, 10, 10, 50, 40⟩, ⟨100, 0, 10, 10, 60, 40⟩]
        1).headD default).bubbles.length
    ∧ ((group_bubbles_scanned
        [⟨0, 0, 10, 10, 10, 40⟩, ⟨20, 0, 10, 10, 20, 40⟩, ⟨40, 0, 10, 10, 30, 40⟩,
         ⟨60, 0, 10, 10, 40, 40⟩, ⟨80, 0, 10, 10, 50, 40⟩, ⟨100, 0, 10, 10, 60, 40⟩]
        1).headD default) ∈ group_bubbles_scanned
        [⟨0, 0, 10, 10, 10, 40⟩, ⟨20, 0, 10, 10, 20, 40⟩, ⟨40, 0, 10, 10, 30, 40⟩,
         ⟨60, 0, 10, 10, 40, 40⟩, ⟨80, 0, 10, 10, 50, 40⟩, ⟨100, 0, 10, 10, 60, 40⟩] 1
    ∧ (((group_bubbles_scanned
        [⟨0, 0, 10, 10, 10, 40⟩, ⟨20, 0, 10, 10, 20, 40⟩, ⟨40, 0, 10, 10, 30, 40⟩,
         ⟨60, 0, 10, 10, 40, 40⟩, ⟨80, 0, 10, 10, 50, 40⟩, ⟨100, 0, 10, 10, 60, 40⟩]
        1).headD default).bubbles.map Candidate.x = [100, 80, 60, 40, 20])
    ∧ ¬ ((group_bubbles_scanned
        [⟨0, 0, 10, 10, 10, 40⟩, ⟨20, 0, 10, 10, 20, 40⟩, ⟨40, 0, 10, 10, 30, 40⟩,
         ⟨60, 0, 10, 10, 40, 40⟩, ⟨80, 0, 10, 10, 50, 40⟩, ⟨100, 0, 10, 10, 60, 40⟩]
        1).headD default).bubbles.Sorted byX :=
  of_decide_eq_true (by with_unfolding_all rfl)

/-- Witness for the C2 theorem at a two-bubble row (no overlap filtering). -/
theorem group_rows_sorted_witness :
    ((group_bubbles_scanned [⟨0, 0, 10, 10, 80, 33⟩, ⟨20, 0, 10, 10, 80, 33⟩] 1).headD
        default).bubbles.Sorted byX
    ∨ ∃ bs : List Candidate, NUM_CHOICES < bs.length ∧ bs.Sorted byX ∧
        ((group_bubbles_scanned [⟨0, 0, 10, 10, 80, 33⟩, ⟨20, 0, 10, 10, 80, 33⟩] 1).headD
            default).bubbles = filter_overlapping_bubbles bs :=
  group_rows_sorted_by_x_or_filtered
    [⟨0, 0, 10, 10, 80, 33⟩, ⟨20, 0, 10, 10, 80, 33⟩] 1 _
    (of_decide_eq_true (by with_unfolding_all rfl))
    (of_decide_eq_true (by with_unfolding_all rfl))

/-- Witness for the C3 theorem: a lone `FILLED` at index 0 resolves to 0. -/
theorem resolve_row_states_cases_witness :
    resolve_row_states [BubbleState.FILLED, BubbleState.BLANK] = some 0 :=
  (resolve_row_states_cases [BubbleState.FILLED, BubbleState.BLANK]).1 0 (by decide)

/-- Witness for the C4 theorem at a two-question report. -/
theorem score_answers_with_key_invariants_witness :
    (score_answers_with_key [some 0, none] ['A', 'B'] 2).score
        = countCorrect (score_answers_with_key [some 0, none] ['A', 'B'] 2).detailed_responses
    ∧ (score_answers_with_key [some 0, none] ['A', 'B'] 2).correct_answers
        + (score_answers_with_key [some 0, none] ['A', 'B'] 2).incorrect_answers
        + (score_answers_with_key [some 0, none] ['A', 'B'] 2).blank_answers
        + (score_answers_with_key [some 0, none] ['A', 'B'] 2).multiple_marks
        + (score_answers_with_key [some 0, none] ['A', 'B'] 2).partial_marks
        = 2
    ∧ (score_answers_with_key [some 0, none] ['A', 'B'] 2).attempted
        + (score_answers_with_key [some 0, none] ['A', 'B'] 2).blank_answers
        = 2
    ∧ (score_answers_with_key [some 0, none] ['A', 'B'] 2).invalid_answers
        = (score_answers_with_key [some 0, none] ['A', 'B'] 2).multiple_marks
          + (score_answers_with_key [some 0, none] ['A', 'B'] 2).partial_marks
    ∧ ((score_answers_with_key [some 0, none] ['A', 'B'] 2).attempted = 0 →
        (score_answers_with_key [some 0, none] ['A', 'B'] 2).accuracy = 0)
    ∧ (0 < (score_answers_with_key [some 0, none] ['A', 'B'] 2).attempted →
        (score_answers_with_key [some 0, none] ['A', 'B'] 2).accuracy
          = ((score_answers_with_key [some 0, none] ['A', 'B'] 2).score : ℚ)
            / ((score_answers_with_key [some 0, none] ['A', 'B'] 2).attempted : ℚ)
            * 100) :=
  score_answers_with_key_invariants [some 0, none] ['A', 'B'] 2 (by decide) rfl

/-- Witness for the C5 theorem: a pipeline whose image stages all succeed
but whose `student_id` holds no `'_'` surfaces the wrapped Internal
(`IndexError`) message. -/
theorem process_omr_image_errors_witness :
    @process_omr_image Unit (some ()) (fun _ => [⟨0, 0, 10, 10, 80, 33⟩])
        (fun _ _ => (BubbleState.BLANK, 0)) [] 1 "STUDENT001"
      = .error "Failed to process OMR image: list index out of range" :=
  (@process_omr_image_errors Unit (some ()) (fun _ => [⟨0, 0, 10, 10, 80, 33⟩])
    (fun _ _ => (BubbleState.BLANK, 0)) [] 1 "STUDENT001").2.2.2.2.1 () rfl
    (by simp) one_ne_zero
    (of_decide_eq_true (by with_unfolding_all rfl))
    (of_decide_eq_true (by with_unfolding_all rfl))

/-- Claim C6 counterexample: in the spec's first seed scenario (20
questions, key `A..E` repeated, every question marked at its key index)
the code computes confidence `85`, not the claimed `95`: the clamp's upper
bound `95` is never reached because `70 + (100 - 50) * 0.3 = 85`. -/
theorem seed_scenario_confidence_not_95 :
    (score_answers_with_key seedMarkedAnswers seedAnswerKey 20).accuracy = 100
    ∧ (score_answers_with_key seedMarkedAnswers seedAnswerKey 20).score = 20
    ∧ (score_answers_with_key seedMarkedAnswers seedAnswerKey 20).confidence ≠ 95 :=
  of_decide_eq_true (by with_unfolding_all rfl)

/-- Claim C6 (amended): the seed scenario scores 20/20 with accuracy 100,
and its confidence is `85 = 70 + (100 - 50) * 0.3`, which the clamp to
`[50, 95]` leaves unchanged. -/
theorem seed_scenario_report :
    (score_answers_with_key seedMarkedAnswers seedAnswerKey 20).score = 20
    ∧ (score_answers_with_key seedMarkedAnswers seedAnswerKey 20).accuracy = 100
    ∧ (score_answers_with_key seedMarkedAnswers seedAnswerKey 20).confidence = 85 :=
  of_decide_eq_true (by with_unfolding_all rfl)

/-- Witness for the C7 theorem at a one-question report. -/
theorem confidence_matches_spec_formula_witness :
    (score_answers_with_key [some 0] ['A'] 1).confidence
      = max 30
          (clamp (70 + ((score_answers_with_key [some 0] ['A'] 1).accuracy - 50) * (3 / 10))
              50 95
            - (((score_answers_with_key [some 0] ['A'] 1).multiple_marks
                  + (score_answers_with_key [some 0] ['A'] 1).partial_marks : ℕ) : ℚ)
              / (1 : ℚ) * 20) :=
  confidence_matches_spec_formula [some 0] ['A'] 1 one_pos

/-- Witness for the C8 theorem on two keys that are permutations of each
other. -/
theorem key_permutation_invariants_witness :
    (score_answers_with_key [some 0] ['A', 'B'] 1).attempted
        = (score_answers_with_key [some 0] ['B', 'A'] 1).attempted
    ∧ (score_answers_with_key [some 0] ['A', 'B'] 1).responses
        = (score_answers_with_key [some 0] ['B', 'A'] 1).responses
    ∧ (score_answers_with_key [some 0] ['A', 'B'] 1).detailed_responses.map Response.marked
        = (score_answers_with_key [some 0] ['B', 'A'] 1).detailed_responses.map
            Response.marked :=
  key_permutation_invariants [some 0] 1 ['A', 'B'] ['B', 'A'] (by decide)

/-- Witness for the C9 theorem on an empty row list. -/
theorem detect_marked_bubbles_shape_witness :
    (detect_marked_bubbles_scanned (fun _ => (BubbleState.BLANK, 0)) [] 2).length = 2
    ∧ ((none : Option ℤ) = none ∨ (none : Option ℤ) = some (-2)
        ∨ (none : Option ℤ) = some (-3)
        ∨ ∃ j : ℕ, (none : Option ℤ) = some (j : ℤ) ∧ j < NUM_CHOICES) :=
  ⟨(detect_marked_bubbles_shape (fun _ => (BubbleState.BLANK, 0)) [] 2).1,
   (detect_marked_bubbles_shape (fun _ => (BubbleState.BLANK, 0)) [] 2).2 none (by decide)⟩

/-- Witness for the C10 theorem: an empty key over one question. -/
theorem short_key_defaults_to_A_witness :
    score_answers_with_key [] [] 1
        = score_answers_with_key [] (([] : List Char) ++ List.replicate (1 - 0) 'A') 1
    ∧ (score_answers_with_key [] [] 1).detailed_responses[0]?
        = some (respOf (([] : List (Option ℤ)).getD 0 none) 'A' 0) :=
  ⟨(short_key_defaults_to_A [] [] 1 (by norm_num)).1,
   (short_key_defaults_to_A [] [] 1 (by norm_num)).2 0 (by norm_num) (by norm_num)⟩

end Omr
